import Mathlib

/-!
# Verification of the Jarvis IDE bridge client

Shallow embedding of the editor-side bridge client of the Jarvis project:
the HTTP client `BridgeClient` (`bridgeClient.ts`) and the VS Code
extension glue (`extension.ts`).  Definitions are translated from the
TypeScript source; external Node/VS Code collaborators (JSON.stringify,
JSON.parse, `vscode.workspace.asRelativePath`, the filesystem) are taken
as explicit function parameters.
-/

namespace Jarvis

/-! ## Request bodies

Each `BridgeClient` method sends a specific structured body (or none).
`BridgeBody` enumerates exactly the body shapes built in `bridgeClient.ts`
and passed to `requestJson`. -/

/-- A buffer entry of the context payload, from `pushContext`:
`{ content, languageId, version }`. -/
structure BufferInfo where
  content : String
  languageId : String
  version : Nat
deriving DecidableEq, Repr

/-- Selection part of the context payload, from `pushContext`. -/
structure SelectionPayload where
  startLine : Nat
  startCharacter : Nat
  endLine : Nat
  endCharacter : Nat
  text : String
deriving DecidableEq, Repr

/-- The context payload built by `pushContext`:
`{ active_file, selection, buffers }`.  `buffers` is a JS object
(`Record<string, any>`), modelled as an association list in assignment
order with overwrite-on-same-key semantics (see `recordSet`). -/
structure ContextPayload where
  active_file : String
  selection : SelectionPayload
  buffers : List (String × BufferInfo)
deriving DecidableEq, Repr

/-- Session preferences sent by `ensureSession`:
`{ test_command: testCommand || undefined, test_timeout_seconds }`. -/
structure Preferences where
  test_command : Option String
  test_timeout_seconds : Nat
deriving DecidableEq, Repr

/-- One diagnostic record built by `pushDiagnostics`. -/
structure DiagnosticPayload where
  file : String
  severity : String
  message : String
  start_line : Nat
  end_line : Nat
deriving DecidableEq, Repr

/-- Generation options sent by `askJarvis`:
`{ max_new_tokens, temperature }` (temperature scaled by 10 to stay in
integers: the source value 0.2 is stored as 2). -/
structure GenOptions where
  max_new_tokens : Nat
  temperatureTimes10 : Nat
deriving DecidableEq, Repr

/-- The request bodies passed to `requestJson` by the `BridgeClient`
methods, one constructor per call site in `bridgeClient.ts`. -/
inductive BridgeBody where
  /-- `{ workspace_root, client, preferences }` from `startSession`. -/
  | startSession (workspace_root : String) (client : String) (preferences : Preferences)
  /-- the raw context payload `ctx` from `setContext`. -/
  | context (ctx : ContextPayload)
  /-- `{ diagnostics }` from `setDiagnostics`. -/
  | diagnostics (diagnostics : List DiagnosticPayload)
  /-- `{ prompt, options }` from `request`. -/
  | request (prompt : String) (options : GenOptions)
  /-- `{ confirm }` from `apply`. -/
  | applyConfirm (confirm : String)
  /-- the empty object `{}` from `discard`. -/
  | emptyObj
deriving DecidableEq, Repr

/-! ## `requestJson`: the outgoing request -/

/-- The wire request assembled by `requestJson` in `bridgeClient.ts`:
method, full URL string, header list, and the (unstringified) body. -/
structure HttpRequest where
  method : String
  url : String
  headers : List (String × String)
  body : Option BridgeBody
deriving DecidableEq, Repr

/-- Model of `requestJson`'s request construction.  `stringify` models
Node's `JSON.stringify` (external collaborator); it is used only for the
`Content-Length` header, as in the source
(`payload = body ? Buffer.from(JSON.stringify(body), "utf8") : undefined`).
Headers are `Authorization`, `Content-Type`, and `Content-Length` when a
payload exists. -/
def requestJson (stringify : BridgeBody → String) (method : String) (urlStr : String)
    (token : String) (body : Option BridgeBody) : HttpRequest :=
  let payload := body.map stringify
  { method := method
    url := urlStr
    headers :=
      [("Authorization", "Bearer " ++ token), ("Content-Type", "application/json")] ++
        (match payload with
         | some p => [("Content-Length", toString p.length)]
         | none => [])
    body := body }

/-! ## `encodeURIComponent`

JS builtin used for path segments; modelled per its specification:
unreserved characters (`A–Z a–z 0–9 - _ . ! ~ * ' ( )`) pass through,
every other character is percent-encoded byte-by-byte in UTF-8 with
uppercase hex digits. -/

/-- Uppercase hexadecimal digit for `n < 16`. -/
def hexDigitUpper (n : Nat) : Char :=
  if n < 10 then Char.ofNat (48 + n) else Char.ofNat (55 + n)

/-- UTF-8 byte sequence of a character, as numbers below 256. -/
def utf8Bytes (c : Char) : List Nat :=
  let n := c.toNat
  if n < 0x80 then [n]
  else if n < 0x800 then [0xC0 + n / 64, 0x80 + n % 64]
  else if n < 0x10000 then [0xE0 + n / 4096, 0x80 + (n / 64) % 64, 0x80 + n % 64]
  else [0xF0 + n / 262144, 0x80 + (n / 4096) % 64, 0x80 + (n / 64) % 64, 0x80 + n % 64]

/-- Characters left unescaped by `encodeURIComponent`. -/
def isURIUnreserved (c : Char) : Bool :=
  c.isAlphanum || c == '-' || c == '_' || c == '.' || c == '!' || c == '~' ||
    c == '*' || c == '\'' || c == '(' || c == ')'

/-- Percent-encoding of one byte: `%XX` with uppercase hex. -/
def percentByte (b : Nat) : String :=
  String.mk ['%', hexDigitUpper (b / 16 % 16), hexDigitUpper (b % 16)]

/-- Model of the JS `encodeURIComponent` builtin. -/
def encodeURIComponent (s : String) : String :=
  s.data.foldl
    (fun acc c =>
      if isURIUnreserved c then acc.push c
      else acc ++ String.join ((utf8Bytes c).map percentByte))
    ""

/-! ## `BridgeClient` -/

/-- Constructor options of `BridgeClient` (`BridgeClientOptions`). -/
structure BridgeClientOptions where
  baseUrl : String
  token : String
deriving DecidableEq, Repr

/-- Strip every trailing `/` character: `opts.baseUrl.replace(/\/+$/, "")`.
(The regex is anchored at the end, so it removes exactly the maximal run
of trailing slashes.) -/
def stripTrailingSlashes (s : String) : String :=
  String.mk ((s.data.reverse.dropWhile (fun c => c == '/')).reverse)

/-- The client state: fields `baseUrl` and `token` of class `BridgeClient`. -/
structure BridgeClient where
  baseUrl : String
  token : String
deriving DecidableEq, Repr

/-- The `BridgeClient` constructor: normalizes the base URL by stripping
trailing slashes and stores the token. -/
def BridgeClient.create (opts : BridgeClientOptions) : BridgeClient :=
  { baseUrl := stripTrailingSlashes opts.baseUrl, token := opts.token }

section ClientMethods

variable (stringify : BridgeBody → String)

/-- `health()` — `GET {baseUrl}/health`, no body. -/
def BridgeClient.health (c : BridgeClient) : HttpRequest :=
  requestJson stringify "GET" (c.baseUrl ++ "/health") c.token none

/-- `startSession(workspaceRoot, client, preferences)` —
`POST {baseUrl}/v1/session/start`. -/
def BridgeClient.startSession (c : BridgeClient) (workspaceRoot : String)
    (client : String) (preferences : Preferences) : HttpRequest :=
  requestJson stringify "POST" (c.baseUrl ++ "/v1/session/start") c.token
    (some (.startSession workspaceRoot client preferences))

/-- `setContext(sessionId, ctx)` —
`POST {baseUrl}/v1/session/{encodeURIComponent(sessionId)}/context`. -/
def BridgeClient.setContext (c : BridgeClient) (sessionId : String)
    (ctx : ContextPayload) : HttpRequest :=
  requestJson stringify "POST"
    (c.baseUrl ++ "/v1/session/" ++ encodeURIComponent sessionId ++ "/context")
    c.token (some (.context ctx))

/-- `setDiagnostics(sessionId, diagnostics)` —
`POST {baseUrl}/v1/session/{encodeURIComponent(sessionId)}/diagnostics`. -/
def BridgeClient.setDiagnostics (c : BridgeClient) (sessionId : String)
    (diagnostics : List DiagnosticPayload) : HttpRequest :=
  requestJson stringify "POST"
    (c.baseUrl ++ "/v1/session/" ++ encodeURIComponent sessionId ++ "/diagnostics")
    c.token (some (.diagnostics diagnostics))

/-- `request(sessionId, prompt, options)` —
`POST {baseUrl}/v1/session/{encodeURIComponent(sessionId)}/request`. -/
def BridgeClient.request (c : BridgeClient) (sessionId : String)
    (prompt : String) (options : GenOptions) : HttpRequest :=
  requestJson stringify "POST"
    (c.baseUrl ++ "/v1/session/" ++ encodeURIComponent sessionId ++ "/request")
    c.token (some (.request prompt options))

/-- `job(jobId)` — `GET {baseUrl}/v1/job/{encodeURIComponent(jobId)}`, no body. -/
def BridgeClient.job (c : BridgeClient) (jobId : String) : HttpRequest :=
  requestJson stringify "GET"
    (c.baseUrl ++ "/v1/job/" ++ encodeURIComponent jobId) c.token none

/-- `status(sessionId)` —
`GET {baseUrl}/v1/session/{encodeURIComponent(sessionId)}/status`, no body. -/
def BridgeClient.status (c : BridgeClient) (sessionId : String) : HttpRequest :=
  requestJson stringify "GET"
    (c.baseUrl ++ "/v1/session/" ++ encodeURIComponent sessionId ++ "/status")
    c.token none

/-- `apply(sessionId, confirm)` —
`POST {baseUrl}/v1/session/{encodeURIComponent(sessionId)}/apply`. -/
def BridgeClient.applyPatch (c : BridgeClient) (sessionId : String)
    (confirm : String) : HttpRequest :=
  requestJson stringify "POST"
    (c.baseUrl ++ "/v1/session/" ++ encodeURIComponent sessionId ++ "/apply")
    c.token (some (.applyConfirm confirm))

/-- `discard(sessionId)` —
`POST {baseUrl}/v1/session/{encodeURIComponent(sessionId)}/discard`,
body `{}`. -/
def BridgeClient.discard (c : BridgeClient) (sessionId : String) : HttpRequest :=
  requestJson stringify "POST"
    (c.baseUrl ++ "/v1/session/" ++ encodeURIComponent sessionId ++ "/discard")
    c.token (some .emptyObj)

/-- State-passing reading of the `job` method: the method body contains no
assignment to `this`, so it returns the client state unchanged together
with the request it issues. -/
def BridgeClient.jobStep (c : BridgeClient) (jobId : String) :
    BridgeClient × HttpRequest :=
  (c, BridgeClient.job stringify c jobId)

end ClientMethods

/-! ## `requestJson`: response handling

The promise in `requestJson` settles from one of two events: a transport
error (`req.on("error", reject)`) or a completed response.  For a
completed response it reads `statusCode`, `statusMessage` and the
accumulated body text and resolves or rejects per the `res.on("end")`
handler. -/

/-- A completed HTTP response as observed by the `end` handler:
`statusCode` may be absent (`Option`), plus status message and body text. -/
structure HttpResponse where
  statusCode : Option Nat
  statusMessage : String
  data : String
deriving DecidableEq, Repr

/-- What a 2xx response resolves to: the empty object for an empty body,
the parsed JSON value on parse success, or the raw body text when
`JSON.parse` throws (`// some endpoints return plain text`). -/
inductive ResolvedValue (J : Type) where
  | emptyObj
  | parsed (v : J)
  | rawText (s : String)
deriving DecidableEq, Repr

/-- JS string image of the status code in the rejection message:
`undefined` when absent. -/
def statusCodeText : Option Nat → String
  | none => "undefined"
  | some c => toString c

/-- The `res.on("end")` handler of `requestJson`.  `parseJson` models
`JSON.parse` (external collaborator): `none` means the parse throws.
Resolves iff `statusCode` is truthy and in `[200, 300)` (a JS-falsy
`statusCode` of `0` is outside that range, so the numeric test suffices);
otherwise rejects with ``{statusCode} {statusMessage}: {data}``. -/
def handleResponse {J : Type} (parseJson : String → Option J)
    (r : HttpResponse) : Except String (ResolvedValue J) :=
  match r.statusCode with
  | some c =>
    if 200 ≤ c ∧ c < 300 then
      .ok (if r.data = "" then .emptyObj
           else match parseJson r.data with
                | some v => .parsed v
                | none => .rawText r.data)
    else .error (statusCodeText (some c) ++ " " ++ r.statusMessage ++ ": " ++ r.data)
  | none => .error (statusCodeText none ++ " " ++ r.statusMessage ++ ": " ++ r.data)

/-- Settlement of the `requestJson` promise: a transport error rejects
with that error, a completed response goes through `handleResponse`. -/
def requestResult {J : Type} (parseJson : String → Option J)
    (transport : Except String HttpResponse) : Except String (ResolvedValue J) :=
  match transport with
  | .error e => .error e
  | .ok r => handleResponse parseJson r

/-! ## Extension glue (`extension.ts`) -/

/-- Substring containment on strings (JS `String.prototype.includes`). -/
def strContains (s pat : String) : Bool :=
  (List.range (s.length + 1)).any (fun i => pat.data.isPrefixOf (s.data.drop i))

/-- JS `toLowerCase`, character-wise. -/
def lowerStr (s : String) : String :=
  String.mk (s.data.map Char.toLower)

/-- The session-not-found test of `withSessionRetry`:
`msg.includes("404") && msg.toLowerCase().includes("session")`. -/
def isSessionNotFoundMsg (msg : String) : Bool :=
  strContains msg "404" && strContains (lowerStr msg) "session"

/-- Outcome of `withSessionRetry`: the settlement of the wrapped call,
the number of times `op` was invoked, and whether the session was
recreated (`sessionId = undefined; await ensureSession()`). -/
structure RetryOutcome (α : Type) where
  result : Except String α
  attempts : Nat
  recreatedSession : Bool

/-- `withSessionRetry(op)`: run `op`; on an error whose message contains
`"404"` and (case-insensitively) `"session"`, recreate the session and
run `op` once more, returning that second settlement as-is; any other
error is rethrown unchanged.  `op n` is the settlement of the `n`-th
invocation of `op` (the retried call runs against the recreated
session, so the two invocations may settle differently). -/
def withSessionRetry {α : Type} (op : Nat → Except String α) : RetryOutcome α :=
  match op 0 with
  | .ok a => { result := .ok a, attempts := 1, recreatedSession := false }
  | .error e =>
    if isSessionNotFoundMsg e then
      { result := op 1, attempts := 2, recreatedSession := true }
    else
      { result := .error e, attempts := 1, recreatedSession := false }

/-- `normRelPathFromUri`: `vscode.workspace.asRelativePath(uri)` with
every backslash replaced by a forward slash
(`.split("\\").join("/")`, a single-character separator, hence a
character-wise replacement).  `relPath` is the string returned by
`asRelativePath`. -/
def normRelPath (relPath : String) : String :=
  String.mk (relPath.data.map (fun c => if c = '\\' then '/' else c))

/-- JS object assignment `m[k] = v`: overwrite the existing entry for `k`
if present, otherwise append a new entry. -/
def recordSet (m : List (String × BufferInfo)) (k : String) (v : BufferInfo) :
    List (String × BufferInfo) :=
  if m.any (fun p => p.1 = k) then
    m.map (fun p => if p.1 = k then (k, v) else p)
  else m ++ [(k, v)]

/-- Key membership in a JS-object model. -/
def hasKey (m : List (String × BufferInfo)) (k : String) : Bool :=
  m.any (fun p => p.1 = k)

/-- A VS Code text document as read by `pushContext`: the value
`asRelativePath(doc.uri)` returns for its URI, `getText()`, `languageId`,
`version` and `isDirty`. -/
structure TextDocument where
  relPath : String
  text : String
  languageId : String
  version : Nat
  isDirty : Bool
deriving DecidableEq, Repr

/-- The active editor as read by `pushContext`: its document, the
selection endpoints, and `document.getText(selection)`. -/
structure ActiveEditor where
  document : TextDocument
  selStartLine : Nat
  selStartCharacter : Nat
  selEndLine : Nat
  selEndCharacter : Nat
  selectedText : String
deriving DecidableEq, Repr

/-- The editor-side state `pushContext` reads: module-level `client` and
`sessionId`, `vscode.window.activeTextEditor`, and
`vscode.workspace.textDocuments`. -/
structure EditorState where
  hasClient : Bool
  sessionId : Option String
  activeTextEditor : Option ActiveEditor
  textDocuments : List TextDocument
deriving DecidableEq, Repr

/-- The buffer entry stored for a document: `{ content, languageId, version }`. -/
def bufferOf (d : TextDocument) : BufferInfo :=
  { content := d.text, languageId := d.languageId, version := d.version }

/-- The `buffers` object of `pushContext`: first the active file's buffer
(`// always include active file buffer (even if not dirty)`), then one
assignment per dirty document in `vscode.workspace.textDocuments`. -/
def buffersOf (ed : ActiveEditor) (docs : List TextDocument) :
    List (String × BufferInfo) :=
  (docs.filter (·.isDirty)).foldl
    (fun m d => recordSet m (normRelPath d.relPath) (bufferOf d))
    (recordSet [] (normRelPath ed.document.relPath) (bufferOf ed.document))

/-- `pushContext`: returns `none` (sends nothing) when there is no
client, no session id, or no active editor; otherwise the payload passed
to `client.setContext`. -/
def pushContextPayload (st : EditorState) : Option ContextPayload :=
  if st.hasClient = false then none
  else match st.sessionId with
  | none => none
  | some _ =>
    match st.activeTextEditor with
    | none => none
    | some ed =>
      some
        { active_file := normRelPath ed.document.relPath
          selection :=
            { startLine := ed.selStartLine, startCharacter := ed.selStartCharacter
              endLine := ed.selEndLine, endCharacter := ed.selEndCharacter
              text := ed.selectedText }
          buffers := buffersOf ed st.textDocuments }

/-! ## `ensureSession` -/

/-- The configuration values `ensureSession` reads:
`jarvis.session.testCommand` (default `""`) and
`jarvis.session.testTimeoutSeconds` (default `900`). -/
structure SessionConfig where
  testCommand : String
  testTimeoutSeconds : Nat
deriving DecidableEq, Repr

/-- The workspace environment `ensureSession` reads: the open workspace
folders (`getWorkspaceRoot` takes the first one) and the configuration. -/
structure WorkspaceEnv where
  workspaceFolders : List String
  config : SessionConfig
deriving DecidableEq, Repr

/-- `getWorkspaceRoot()`: `workspaceFolders?.[0]?.uri.fsPath ?? null`. -/
def getWorkspaceRoot (env : WorkspaceEnv) : Option String :=
  env.workspaceFolders.head?

/-- The preferences object `ensureSession` sends:
`test_command: testCommand || undefined` (the empty string is falsy),
`test_timeout_seconds: testTimeoutSeconds`. -/
def sessionPreferences (cfg : SessionConfig) : Preferences :=
  { test_command := if cfg.testCommand = "" then none else some cfg.testCommand
    test_timeout_seconds := cfg.testTimeoutSeconds }

/-- The `startSession` request `ensureSession` issues: `none` when there
is no workspace root or no client, otherwise
`client.startSession(wsRoot, "vscode", preferences)`. -/
def ensureSessionRequest (stringify : BridgeBody → String) (env : WorkspaceEnv)
    (client : Option BridgeClient) : Option HttpRequest :=
  match getWorkspaceRoot env, client with
  | some wsRoot, some c =>
    some (BridgeClient.startSession stringify c wsRoot "vscode"
      (sessionPreferences env.config))
  | _, _ => none

/-! ## `askJarvis` polling loop and `applyPendingPatch` -/

/-- Loop-exit test of the polling loop in `askJarvis`:
`if (status !== "running") break`. -/
def pollLoopBreaks (status : String) : Bool :=
  status != "running"

/-- Terminal job statuses per the job model:
`status ∈ {queued, running, succeeded, failed}` with terminal
`{succeeded, failed}`. -/
def isTerminalStatus (status : String) : Bool :=
  status == "succeeded" || status == "failed"

/-- The polling loop of `askJarvis` run against the sequence of statuses
successive polls would report: returns the status the loop breaks on, or
`none` if it is still polling when the sequence ends. -/
def pollUntilBreak : List String → Option String
  | [] => none
  | s :: rest => if pollLoopBreaks s then some s else pollUntilBreak rest

/-- The confirmation phrase of `applyPendingPatch`:
``APPLY IDE PATCH ${pending.id} I UNDERSTAND THIS MODIFIES THE WORKSPACE``. -/
def confirmationPhrase (patchId : String) : String :=
  "APPLY IDE PATCH " ++ patchId ++ " I UNDERSTAND THIS MODIFIES THE WORKSPACE"

/-! ## Token wiring in `activate` -/

/-- `path.join(jarvisRepoRoot, "workspace", "ide", "token.json")`
(POSIX separator). -/
def tokenFilePath (jarvisRepoRoot : String) : String :=
  jarvisRepoRoot ++ "/workspace/ide/token.json"

/-- `readTokenFromJarvisWorkspace`: read the credential file and take the
`token` field of its parsed JSON.  `readFile` models `fs.readFileSync`
and `parseTokenField` models `JSON.parse(raw).token` (external
collaborators). -/
def readTokenFromJarvisWorkspace (readFile : String → String)
    (parseTokenField : String → String) (jarvisRepoRoot : String) : String :=
  parseTokenField (readFile (tokenFilePath jarvisRepoRoot))

/-- The client constructed in `activate`:
`new BridgeClient({ baseUrl, token: readTokenFromJarvisWorkspace(root) })`. -/
def activateClient (readFile : String → String)
    (parseTokenField : String → String) (baseUrl jarvisRepoRoot : String) :
    BridgeClient :=
  BridgeClient.create
    { baseUrl := baseUrl
      token := readTokenFromJarvisWorkspace readFile parseTokenField jarvisRepoRoot }

/-! ## Concrete fixtures

Small concrete values used to exercise the definitions on closed
inputs. -/

/-- A concrete active editor: file `a\b.ts`, not dirty, empty selection. -/
def exampleActiveEditor : ActiveEditor :=
  { document :=
      { relPath := "a\\b.ts", text := "x", languageId := "ts",
        version := 1, isDirty := false }
    selStartLine := 0
    selStartCharacter := 0
    selEndLine := 0
    selEndCharacter := 0
    selectedText := "" }

/-- A concrete editor state: the active editor above plus one dirty
document `c.ts`. -/
def exampleEditorState : EditorState :=
  { hasClient := true
    sessionId := some "s"
    activeTextEditor := some exampleActiveEditor
    textDocuments :=
      [{ relPath := "c.ts", text := "y", languageId := "ts",
         version := 2, isDirty := true }] }

/-- The payload `pushContext` builds for `exampleEditorState`. -/
def exampleContextPayload : ContextPayload :=
  { active_file := "a/b.ts"
    selection :=
      { startLine := 0, startCharacter := 0, endLine := 0,
        endCharacter := 0, text := "" }
    buffers :=
      [("a/b.ts", { content := "x", languageId := "ts", version := 1 }),
       ("c.ts", { content := "y", languageId := "ts", version := 2 })] }

/-! ## Theorems -/

/-- C1: if the first attempt of an operation wrapped by
`withSessionRetry` fails with a session-not-found error (message contains
`"404"` and, case-insensitively, `"session"`), the client recreates the
session and retries exactly once, returning the retry's settlement —
including a retry failure — unchanged; any other first failure is
surfaced unchanged with no retry; in no case is `op` invoked more than
twice. -/
theorem withSessionRetry_retries_once {α : Type} (op : Nat → Except String α)
    (e : String) (hfail : op 0 = .error e) :
    (isSessionNotFoundMsg e = true →
      withSessionRetry op =
        { result := op 1, attempts := 2, recreatedSession := true }) ∧
    (isSessionNotFoundMsg e = false →
      withSessionRetry op =
        { result := .error e, attempts := 1, recreatedSession := false }) ∧
    (withSessionRetry op).attempts ≤ 2 := by
  unfold withSessionRetry
  rw [hfail]
  refine ⟨fun h => by simp [h], fun h => by simp [h], ?_⟩
  by_cases h : isSessionNotFoundMsg e <;> simp [h]

/-- Witness for C1 at a concrete operation: the first attempt fails with
a session-not-found message, the second succeeds, and the wrapper
returns the retry's success after exactly two attempts. -/
theorem withSessionRetry_retries_once_witness :
    withSessionRetry
        (fun n => if n = 0 then (.error "404 Not Found: Session missing" : Except String Nat)
                  else .ok 7) =
      { result := .ok 7, attempts := 2, recreatedSession := true } := by
  have h :=
    (withSessionRetry_retries_once
      (fun n => if n = 0 then (.error "404 Not Found: Session missing" : Except String Nat)
                else .ok 7)
      "404 Not Found: Session missing" rfl).1 (by decide)
  simpa using h

/-- C2: the confirmation phrase required by `applyPendingPatch` is the
deterministic string `"APPLY IDE PATCH " ++ p ++ " I UNDERSTAND THIS
MODIFIES THE WORKSPACE"`; it embeds the patch id, and the phrase map is
injective, so distinct patch ids yield distinct phrases. -/
theorem confirmationPhrase_deterministic_injective (p q : String) :
    confirmationPhrase p =
      "APPLY IDE PATCH " ++ p ++ " I UNDERSTAND THIS MODIFIES THE WORKSPACE" ∧
    confirmationPhrase p =
      "APPLY IDE PATCH " ++ (p ++ " I UNDERSTAND THIS MODIFIES THE WORKSPACE") ∧
    (confirmationPhrase p = confirmationPhrase q → p = q) := by
  refine ⟨rfl, by simp [confirmationPhrase, String.append_assoc], fun h => ?_⟩
  have hd : ("APPLY IDE PATCH " ++ p ++
        " I UNDERSTAND THIS MODIFIES THE WORKSPACE").data =
      ("APPLY IDE PATCH " ++ q ++
        " I UNDERSTAND THIS MODIFIES THE WORKSPACE").data :=
    congrArg String.data h
  simp only [String.data_append, List.append_assoc] at hd
  exact String.ext (List.append_cancel_right (List.append_cancel_left hd))

/-- Witness for C2 at the concrete patch id `p1`: the phrase is the
expected literal, and the injectivity implication is discharged at
`p = q = "p1"`. -/
theorem confirmationPhrase_deterministic_injective_witness :
    confirmationPhrase "p1" =
      "APPLY IDE PATCH p1 I UNDERSTAND THIS MODIFIES THE WORKSPACE" ∧
    ("p1" : String) = "p1" :=
  ⟨by
    have h := (confirmationPhrase_deterministic_injective "p1" "p1").1
    simpa using h,
   (confirmationPhrase_deterministic_injective "p1" "p1").2.2 rfl⟩

/-- C3 (code divergence): the polling loop of `askJarvis` breaks as soon
as the polled status differs from `"running"`; in particular it stops on
the non-terminal status `"queued"` instead of continuing to poll, so a
poll sequence `queued, running, succeeded` is abandoned at `"queued"`. -/
theorem askJarvis_poll_stops_on_queued :
    pollLoopBreaks "queued" = true ∧
    isTerminalStatus "queued" = false ∧
    pollUntilBreak ["queued", "running", "succeeded"] = some "queued" ∧
    pollLoopBreaks "running" = false := by
  decide

/-- C4 (counterexample): the session-start request does not go to
`{base}/session/start` as the wire-contract table says; for a concrete
client with base URL `http://h` it goes to `http://h/v1/session/start`,
which differs from `http://h/session/start`. -/
theorem bridgePaths_counterexample :
    (BridgeClient.startSession (fun _ => "") { baseUrl := "http://h", token := "t" }
        "/w" "vscode" (sessionPreferences { testCommand := "", testTimeoutSeconds := 900 })).url
      = "http://h/v1/session/start" ∧
    ("http://h/v1/session/start" : String) ≠ "http://h" ++ "/session/start" := by
  constructor
  · rfl
  · decide

/-- C4 (amended): every `BridgeClient` method sends its request to the
wire-contract path relative to the base URL under a `/v1` prefix — except
health, which is unprefixed: health `GET {base}/health`, session start
`POST {base}/v1/session/start`, context `POST {base}/v1/session/{id}/context`,
diagnostics `POST {base}/v1/session/{id}/diagnostics`, prompt submission
`POST {base}/v1/session/{id}/request`, job poll `GET {base}/v1/job/{id}`,
session status `GET {base}/v1/session/{id}/status`, apply
`POST {base}/v1/session/{id}/apply`, discard `POST {base}/v1/session/{id}/discard`,
with path ids URI-encoded, reads as GET and writes as POST. -/
theorem bridgePaths_v1_amended (stringify : BridgeBody → String) (c : BridgeClient)
    (sid jid wsRoot clientKind prompt confirm : String) (prefs : Preferences)
    (opts : GenOptions) (ctx : ContextPayload) (diags : List DiagnosticPayload) :
    (BridgeClient.health stringify c).method = "GET" ∧
    (BridgeClient.health stringify c).url = c.baseUrl ++ "/health" ∧
    (BridgeClient.startSession stringify c wsRoot clientKind prefs).method = "POST" ∧
    (BridgeClient.startSession stringify c wsRoot clientKind prefs).url =
      c.baseUrl ++ "/v1/session/start" ∧
    (BridgeClient.setContext stringify c sid ctx).method = "POST" ∧
    (BridgeClient.setContext stringify c sid ctx).url =
      c.baseUrl ++ "/v1/session/" ++ encodeURIComponent sid ++ "/context" ∧
    (BridgeClient.setDiagnostics stringify c sid diags).method = "POST" ∧
    (BridgeClient.setDiagnostics stringify c sid diags).url =
      c.baseUrl ++ "/v1/session/" ++ encodeURIComponent sid ++ "/diagnostics" ∧
    (BridgeClient.request stringify c sid prompt opts).method = "POST" ∧
    (BridgeClient.request stringify c sid prompt opts).url =
      c.baseUrl ++ "/v1/session/" ++ encodeURIComponent sid ++ "/request" ∧
    (BridgeClient.job stringify c jid).method = "GET" ∧
    (BridgeClient.job stringify c jid).url =
      c.baseUrl ++ "/v1/job/" ++ encodeURIComponent jid ∧
    (BridgeClient.status stringify c sid).method = "GET" ∧
    (BridgeClient.status stringify c sid).url =
      c.baseUrl ++ "/v1/session/" ++ encodeURIComponent sid ++ "/status" ∧
    (BridgeClient.applyPatch stringify c sid confirm).method = "POST" ∧
    (BridgeClient.applyPatch stringify c sid confirm).url =
      c.baseUrl ++ "/v1/session/" ++ encodeURIComponent sid ++ "/apply" ∧
    (BridgeClient.discard stringify c sid).method = "POST" ∧
    (BridgeClient.discard stringify c sid).url =
      c.baseUrl ++ "/v1/session/" ++ encodeURIComponent sid ++ "/discard" :=
  ⟨rfl, rfl, rfl, rfl, rfl, rfl, rfl, rfl, rfl, rfl, rfl, rfl, rfl, rfl, rfl, rfl, rfl, rfl⟩

/-- C5: the session-start request `ensureSession` issues is a
deterministic function of the workspace environment: it always targets
the first workspace folder as workspace root, declares client kind
`"vscode"`, and sends exactly the preference fields `test_command`
(the configured test command, `none` when empty) and
`test_timeout_seconds` read from configuration — so a recreation after a
session-not-found error sends the same request as the original start
under the same environment. -/
theorem ensureSession_same_request (stringify : BridgeBody → String)
    (env : WorkspaceEnv) (c : BridgeClient) (wsRoot : String)
    (h : env.workspaceFolders.head? = some wsRoot) :
    ensureSessionRequest stringify env (some c) =
      some (BridgeClient.startSession stringify c wsRoot "vscode"
        { test_command :=
            if env.config.testCommand = "" then none else some env.config.testCommand
          test_timeout_seconds := env.config.testTimeoutSeconds }) := by
  unfold ensureSessionRequest getWorkspaceRoot sessionPreferences
  rw [h]

/-- Witness for C5 at a concrete environment: one workspace folder
`/w`, empty test command, timeout 900. -/
theorem ensureSession_same_request_witness :
    ensureSessionRequest (fun _ => "")
        { workspaceFolders := ["/w"], config := { testCommand := "", testTimeoutSeconds := 900 } }
        (some { baseUrl := "http://h", token := "t" }) =
      some (BridgeClient.startSession (fun _ => "") { baseUrl := "http://h", token := "t" }
        "/w" "vscode" { test_command := none, test_timeout_seconds := 900 }) := by
  have h :=
    ensureSession_same_request (fun _ => "")
      { workspaceFolders := ["/w"], config := { testCommand := "", testTimeoutSeconds := 900 } }
      { baseUrl := "http://h", token := "t" } "/w" rfl
  simpa using h

/-- C6: every request issued by the client constructed in `activate`
carries the header `Authorization: Bearer {token}`, where the token is
the `token` field parsed from the credential file
`{jarvisRepoRoot}/workspace/ide/token.json`; no `BridgeClient` method
builds a request without it. -/
theorem bridgeClient_always_sends_bearer (stringify : BridgeBody → String)
    (readFile parseTokenField : String → String) (baseUrl root : String)
    (sid jid wsRoot clientKind prompt confirm : String) (prefs : Preferences)
    (opts : GenOptions) (ctx : ContextPayload) (diags : List DiagnosticPayload) :
    ("Authorization",
      "Bearer " ++ readTokenFromJarvisWorkspace readFile parseTokenField root) ∈
        (BridgeClient.health stringify
          (activateClient readFile parseTokenField baseUrl root)).headers ∧
    ("Authorization",
      "Bearer " ++ readTokenFromJarvisWorkspace readFile parseTokenField root) ∈
        (BridgeClient.startSession stringify
          (activateClient readFile parseTokenField baseUrl root) wsRoot clientKind prefs).headers ∧
    ("Authorization",
      "Bearer " ++ readTokenFromJarvisWorkspace readFile parseTokenField root) ∈
        (BridgeClient.setContext stringify
          (activateClient readFile parseTokenField baseUrl root) sid ctx).headers ∧
    ("Authorization",
      "Bearer " ++ readTokenFromJarvisWorkspace readFile parseTokenField root) ∈
        (BridgeClient.setDiagnostics stringify
          (activateClient readFile parseTokenField baseUrl root) sid diags).headers ∧
    ("Authorization",
      "Bearer " ++ readTokenFromJarvisWorkspace readFile parseTokenField root) ∈
        (BridgeClient.request stringify
          (activateClient readFile parseTokenField baseUrl root) sid prompt opts).headers ∧
    ("Authorization",
      "Bearer " ++ readTokenFromJarvisWorkspace readFile parseTokenField root) ∈
        (BridgeClient.job stringify
          (activateClient readFile parseTokenField baseUrl root) jid).headers ∧
    ("Authorization",
      "Bearer " ++ readTokenFromJarvisWorkspace readFile parseTokenField root) ∈
        (BridgeClient.status stringify
          (activateClient readFile parseTokenField baseUrl root) sid).headers ∧
    ("Authorization",
      "Bearer " ++ readTokenFromJarvisWorkspace readFile parseTokenField root) ∈
        (BridgeClient.applyPatch stringify
          (activateClient readFile parseTokenField baseUrl root) sid confirm).headers ∧
    ("Authorization",
      "Bearer " ++ readTokenFromJarvisWorkspace readFile parseTokenField root) ∈
        (BridgeClient.discard stringify
          (activateClient readFile parseTokenField baseUrl root) sid).headers :=
  ⟨.head _, .head _, .head _, .head _, .head _, .head _, .head _, .head _, .head _⟩

/-- C7: polling a job is effect-free on the client: the state-passing
reading of `job` returns the client unchanged, the request is a GET with
no body, running it twice from the same state equals running it once,
and the request depends only on the client's `baseUrl` and `token`
fields (so every call for the same job id constructs an identical
request). -/
theorem job_poll_effect_free (stringify : BridgeBody → String)
    (c : BridgeClient) (jobId : String) :
    (BridgeClient.jobStep stringify c jobId).1 = c ∧
    (BridgeClient.jobStep stringify c jobId).2.method = "GET" ∧
    (BridgeClient.jobStep stringify c jobId).2.body = none ∧
    BridgeClient.jobStep stringify (BridgeClient.jobStep stringify c jobId).1 jobId =
      BridgeClient.jobStep stringify c jobId ∧
    BridgeClient.job stringify { baseUrl := c.baseUrl, token := c.token } jobId =
      BridgeClient.job stringify c jobId :=
  ⟨rfl, rfl, rfl, rfl, rfl⟩

/-- C8: the `requestJson` promise rejects exactly when the transport
errors or the response status code is absent or outside `[200, 300)`;
every 2xx response resolves — to the empty object for an empty body, to
the parsed value for a valid-JSON body, and to the raw text when
`JSON.parse` throws. -/
theorem requestJson_resolution {J : Type} (parseJson : String → Option J)
    (transport : Except String HttpResponse) :
    ((requestResult parseJson transport).isOk = true ↔
      ∃ r c, transport = .ok r ∧ r.statusCode = some c ∧ 200 ≤ c ∧ c < 300) ∧
    (∀ r c, transport = .ok r → r.statusCode = some c → 200 ≤ c → c < 300 →
      requestResult parseJson transport =
        .ok (if r.data = "" then .emptyObj
             else match parseJson r.data with
                  | some v => .parsed v
                  | none => .rawText r.data)) := by
  constructor
  · cases transport with
    | error e =>
      simp [requestResult, Except.isOk, Except.toBool]
    | ok r =>
      cases hc : r.statusCode with
      | none =>
        simp [requestResult, handleResponse, hc, Except.isOk, Except.toBool]
      | some c =>
        by_cases hr : 200 ≤ c ∧ c < 300
        · have hres : requestResult parseJson (Except.ok r) =
              .ok (if r.data = "" then .emptyObj
                   else match parseJson r.data with
                        | some v => .parsed v
                        | none => .rawText r.data) := by
            simp [requestResult, handleResponse, hc, if_pos hr]
          rw [hres]
          constructor
          · intro _
            exact ⟨r, c, rfl, hc, hr.1, hr.2⟩
          · intro _
            rfl
        · have hres : requestResult parseJson (Except.ok r) =
              .error (statusCodeText (some c) ++ " " ++ r.statusMessage ++ ": " ++ r.data) := by
            simp [requestResult, handleResponse, hc, if_neg hr]
          rw [hres]
          constructor
          · intro h
            simp [Except.isOk, Except.toBool] at h
          · rintro ⟨r', c', hr', hc', h1, h2⟩
            cases hr'
            rw [hc] at hc'
            cases hc'
            exact absurd ⟨h1, h2⟩ hr
  · rintro r c rfl hc h1 h2
    simp [requestResult, handleResponse, hc, h1, h2]

/-- Witness for C8 at a concrete 2xx response with an empty body: it
resolves to the empty object. -/
theorem requestJson_resolution_witness :
    requestResult (fun _ => (none : Option Unit))
        (.ok { statusCode := some 200, statusMessage := "OK", data := "" }) =
      .ok .emptyObj := by
  have h :=
    (requestJson_resolution (fun _ => (none : Option Unit))
        (.ok { statusCode := some 200, statusMessage := "OK", data := "" })).2
      { statusCode := some 200, statusMessage := "OK", data := "" } 200
      rfl rfl (by decide) (by decide)
  simpa using h

/-- `dropWhile` ignores a leading block of elements satisfying the
predicate. -/
theorem dropWhile_replicate_append (p : Char → Bool) (c : Char) (hc : p c = true)
    (n : Nat) (l : List Char) :
    List.dropWhile p (List.replicate n c ++ l) = List.dropWhile p l := by
  induction n with
  | zero => rfl
  | succ n ih => simp [List.replicate_succ, List.dropWhile_cons, hc, ih]

/-- Stripping trailing slashes absorbs any appended run of slashes. -/
theorem stripTrailingSlashes_append_slashes (u : String) (n : Nat) :
    stripTrailingSlashes (u ++ String.mk (List.replicate n '/')) =
      stripTrailingSlashes u := by
  unfold stripTrailingSlashes
  apply congrArg String.mk
  apply congrArg List.reverse
  have hdata : (u ++ String.mk (List.replicate n '/')).data =
      u.data ++ List.replicate n '/' := by
    simp [String.data_append]
  rw [hdata, List.reverse_append, List.reverse_replicate]
  exact dropWhile_replicate_append (fun c => c == '/') '/' rfl n u.data.reverse

/-- C9: the `BridgeClient` constructor strips every trailing slash from
the base URL, so constructing a client from `u` with any number of
trailing slashes appended yields the same client state — and hence
identical request URLs — as constructing it from `u`. -/
theorem bridgeClient_create_trailing_slash (u t sid : String) (n : Nat)
    (stringify : BridgeBody → String) :
    BridgeClient.create
        { baseUrl := u ++ String.mk (List.replicate n '/'), token := t } =
      BridgeClient.create { baseUrl := u, token := t } ∧
    BridgeClient.status stringify
        (BridgeClient.create
          { baseUrl := u ++ String.mk (List.replicate n '/'), token := t }) sid =
      BridgeClient.status stringify
        (BridgeClient.create { baseUrl := u, token := t }) sid := by
  have h := stripTrailingSlashes_append_slashes u n
  exact ⟨by simp [BridgeClient.create, h], by simp [BridgeClient.create, h]⟩

/-- Assigning key `k` makes `k` present. -/
theorem hasKey_recordSet_self (m : List (String × BufferInfo)) (k : String)
    (v : BufferInfo) : hasKey (recordSet m k v) k = true := by
  unfold hasKey recordSet
  by_cases h : m.any (fun p => p.1 = k)
  · simp only [if_pos h, List.any_map]
    rcases List.any_eq_true.mp h with ⟨p, hp, hpk⟩
    have hpk : p.1 = k := of_decide_eq_true hpk
    exact List.any_eq_true.mpr ⟨p, hp, by simp [Function.comp, hpk]⟩
  · simp [if_neg h]

/-- Assigning any key preserves the presence of existing keys. -/
theorem hasKey_recordSet_of_hasKey (m : List (String × BufferInfo))
    (k' k : String) (v : BufferInfo) (h : hasKey m k' = true) :
    hasKey (recordSet m k v) k' = true := by
  unfold hasKey recordSet
  unfold hasKey at h
  by_cases hm : m.any (fun p => p.1 = k)
  · simp only [if_pos hm, List.any_map]
    rcases List.any_eq_true.mp h with ⟨p, hp, hpk'⟩
    have hpk' : p.1 = k' := of_decide_eq_true hpk'
    apply List.any_eq_true.mpr
    refine ⟨p, hp, ?_⟩
    show decide ((if p.1 = k then (k, v) else p).1 = k') = true
    by_cases hpk : p.1 = k
    · rw [if_pos hpk]
      have hkk' : k = k' := hpk.symm.trans hpk'
      simp [hkk']
    · rw [if_neg hpk]
      simp [hpk']
  · simp only [if_neg hm, List.any_append]
    rw [h]
    simp

/-- Folding buffer assignments over further documents preserves keys. -/
theorem hasKey_buffersFold_of_hasKey (docs : List TextDocument)
    (m : List (String × BufferInfo)) (k : String) (h : hasKey m k = true) :
    hasKey (docs.foldl
      (fun m d => recordSet m (normRelPath d.relPath) (bufferOf d)) m) k = true := by
  induction docs generalizing m with
  | nil => exact h
  | cons d rest ih => exact ih _ (hasKey_recordSet_of_hasKey _ _ _ _ h)

/-- Every document folded in ends up with its key present. -/
theorem hasKey_buffersFold_mem (docs : List TextDocument)
    (m : List (String × BufferInfo)) (d : TextDocument) (hd : d ∈ docs) :
    hasKey (docs.foldl
      (fun m d => recordSet m (normRelPath d.relPath) (bufferOf d)) m)
      (normRelPath d.relPath) = true := by
  induction docs generalizing m with
  | nil => cases hd
  | cons d' rest ih =>
    rcases List.mem_cons.mp hd with h | h
    · subst h
      exact hasKey_buffersFold_of_hasKey rest _ _ (hasKey_recordSet_self _ _ _)
    · exact ih _ h

/-- C10: whenever `pushContext` builds a payload (client, session and
active editor all present), the `buffers` object contains an entry keyed
by the active file's backslash-normalized workspace-relative path — even
when that document is not dirty — and an entry for every dirty open
document, and `active_file` equals the active file's normalized relative
path. -/
theorem pushContext_buffers_complete (st : EditorState) (p : ContextPayload)
    (ed : ActiveEditor) (hp : pushContextPayload st = some p)
    (hed : st.activeTextEditor = some ed) :
    p.active_file = normRelPath ed.document.relPath ∧
    hasKey p.buffers (normRelPath ed.document.relPath) = true ∧
    ∀ d ∈ st.textDocuments, d.isDirty = true →
      hasKey p.buffers (normRelPath d.relPath) = true := by
  unfold pushContextPayload at hp
  by_cases hcl : st.hasClient = false
  · rw [if_pos hcl] at hp
    cases hp
  · rw [if_neg hcl] at hp
    cases hsid : st.sessionId with
    | none => rw [hsid] at hp; cases hp
    | some sid =>
      rw [hsid, hed] at hp
      injection hp with hp
      subst hp
      refine ⟨rfl, ?_, ?_⟩
      · unfold buffersOf
        exact hasKey_buffersFold_of_hasKey _ _ _ (hasKey_recordSet_self _ _ _)
      · intro d hd hdirty
        unfold buffersOf
        exact hasKey_buffersFold_mem _ _ d
          (List.mem_filter.mpr ⟨hd, by simp [hdirty]⟩)

/-- Witness for C10 at `exampleEditorState`: active file `a\\b.ts`
(clean) and one dirty document `c.ts`; both keys are present in the
built payload and `active_file` is the normalized path `a/b.ts`. -/
theorem pushContext_buffers_complete_witness :
    exampleContextPayload.active_file =
      normRelPath exampleActiveEditor.document.relPath ∧
    hasKey exampleContextPayload.buffers
      (normRelPath exampleActiveEditor.document.relPath) = true ∧
    ∀ d ∈ exampleEditorState.textDocuments, d.isDirty = true →
      hasKey exampleContextPayload.buffers (normRelPath d.relPath) = true :=
  pushContext_buffers_complete exampleEditorState exampleContextPayload
    exampleActiveEditor (by decide) (by decide)

end Jarvis
